import Mathlib

/-!
Shallow embedding of `app.py` (a LINE chat bot serving Taiwan stock quotes).

The embedded parts are the two functions the claims are about:

* `get_stock_info` — normalizes the provider response into a quote snapshot
  and computes the derived `change` / `change_pct` fields;
* `handle_text_message` — splits the inbound message into ticker codes,
  fetches a snapshot per code and formats the reply text.

Python floats are modelled as exact rationals (`ℚ`): `float(...)` becomes a
decimal-literal parser `pyFloat?` returning `Option ℚ` (the non-finite
literals `inf`/`nan` and digit-group underscores are outside the rational
model), and `round(x, 2)` becomes round-half-to-even at two decimals on the
exact value.  The network layer is modelled by an inductive `FetchResult`
describing the outcome the `try` block observes.
-/

namespace App

/-- One object of the provider's `msgArray`.  Each single-letter key may be
missing from the JSON object; `info.get(k, "")` in the source reads a missing
key as `""`, which the embedding renders as `Option.getD ""`. -/
structure ResultObj where
  o : Option String
  h : Option String
  l : Option String
  y : Option String
  z : Option String
deriving DecidableEq, Repr

/-- A successfully decoded provider body: the `msgArray` key may be absent. -/
structure ProviderData where
  msgArray : Option (List ResultObj)
deriving DecidableEq, Repr

/-- Outcome of `requests.get` / `raise_for_status` / `resp.json()` as seen by
the `try` block of `get_stock_info`:
* `transportError` — `requests.get` raised (connection failure, timeout);
* `httpError` — `resp.raise_for_status()` raised on a non-success status;
* `malformedBody` — `resp.json()` raised, or the body was not of the shape
  the extraction code expects;
* `ok data` — a decoded JSON body. -/
inductive FetchResult where
  | transportError
  | httpError
  | malformedBody
  | ok (data : ProviderData)
deriving DecidableEq, Repr

/-- The dict returned by `get_stock_info`: five raw string fields and the two
derived numeric fields, each `None`-able. -/
structure StockInfo where
  open_price : Option String
  high_price : Option String
  low_price  : Option String
  prev : Option String
  last : Option String
  change : Option ℚ
  change_pct : Option ℚ
deriving DecidableEq, Repr

/-- Source line `raw if raw and raw != "-" else None`: a field is kept exactly
when it is neither the empty string (Python falsy) nor the placeholder `"-"`. -/
def normField (raw : String) : Option String :=
  if raw ≠ "" ∧ raw ≠ "-" then some raw else none

/-- Python's `s.strip()`: drop leading and trailing whitespace. -/
def pyStrip (s : String) : String :=
  ⟨((s.data.dropWhile Char.isWhitespace).reverse.dropWhile Char.isWhitespace).reverse⟩

/-- Helper for `pySplitComma`: accumulate the current token (reversed) while
scanning for the next comma. -/
def splitCommaAux : List Char → List Char → List String
  | [], acc => [⟨acc.reverse⟩]
  | ',' :: rest, acc => (⟨acc.reverse⟩ : String) :: splitCommaAux rest []
  | c :: rest, acc => splitCommaAux rest (c :: acc)

/-- Python's `s.split(",")`: split on every comma, keeping empty tokens
(so `"".split(",") == [""]`). -/
def pySplitComma (s : String) : List String :=
  splitCommaAux s.data []

/-- Model of `s.replace(",", "")` — strip thousands-separator commas before
`float`. -/
def stripCommas (s : String) : String :=
  ⟨s.data.filter (fun c => c ≠ ',')⟩

/-- Value of a digit character. -/
def digitVal (c : Char) : Nat := c.toNat - 48

/-- Read a digit list as a base-10 natural number. -/
def digitsToNat (ds : List Char) : Nat :=
  ds.foldl (fun n c => n * 10 + digitVal c) 0

/-- Power `10 ^ e` for an integer exponent, as a rational. -/
def qpow10 : ℤ → ℚ
  | (n : ℕ) => (10 : ℚ) ^ n
  | .negSucc n => 1 / (10 : ℚ) ^ (n + 1)

/-- Exponent suffix of a float literal: optional sign, then one or more
digits, consuming the whole rest of the input. -/
def parseExpPart : List Char → Option ℤ
  | '+' :: r => if !r.isEmpty && r.all Char.isDigit then some (digitsToNat r) else none
  | '-' :: r => if !r.isEmpty && r.all Char.isDigit then some (-(digitsToNat r : ℤ)) else none
  | r => if !r.isEmpty && r.all Char.isDigit then some (digitsToNat r) else none

/-- Unsigned float literal: `digits [. digits] [exponent]` or
`. digits [exponent]`, with at least one mantissa digit. -/
def parseMantissaExp (cs : List Char) : Option ℚ :=
  let ip := cs.takeWhile Char.isDigit
  match cs.dropWhile Char.isDigit with
  | [] => if ip.isEmpty then none else some (digitsToNat ip : ℚ)
  | '.' :: rest2 =>
    let fp := rest2.takeWhile Char.isDigit
    if ip.isEmpty && fp.isEmpty then none
    else
      let mant : ℚ := (digitsToNat ip : ℚ) + (digitsToNat fp : ℚ) / (10 : ℚ) ^ fp.length
      match rest2.dropWhile Char.isDigit with
      | [] => some mant
      | c :: r =>
        if c = 'e' ∨ c = 'E' then (parseExpPart r).map (fun e => mant * qpow10 e)
        else none
  | c :: r =>
    if ip.isEmpty then none
    else if c = 'e' ∨ c = 'E' then
      (parseExpPart r).map (fun e => (digitsToNat ip : ℚ) * qpow10 e)
    else none

/-- Python's `float(s)` on finite decimal literals: surrounding whitespace is
ignored, an optional sign precedes the unsigned literal.  Returns `none`
where `float` raises `ValueError`. -/
def pyFloat? (s : String) : Option ℚ :=
  match (pyStrip s).data with
  | [] => none
  | '+' :: cs => parseMantissaExp cs
  | '-' :: cs => (parseMantissaExp cs).map Neg.neg
  | cs => parseMantissaExp cs

/-- Round a rational to the nearest integer, ties to even (Python's
`round` on an exact value). -/
def rhe (q : ℚ) : ℤ :=
  let f : ℤ := q.floor
  let frac : ℚ := q - (f : ℚ)
  if frac < 1 / 2 then f
  else if frac > 1 / 2 then f + 1
  else if f % 2 = 0 then f else f + 1

/-- Model of `round(q, 2)` on an exact rational value. -/
def round2 (q : ℚ) : ℚ :=
  (rhe (q * 100) : ℚ) / 100

/-- Lines 77–88 of the source: the `try: float(...)` block computing
`change` and `change_pct` from the normalized `prev` / `last` strings.
A failed parse of either string leaves both results `none`. -/
def computeChange (prev last : Option String) : Option ℚ × Option ℚ :=
  match prev, last with
  | some p, some l =>
    match pyFloat? (stripCommas p), pyFloat? (stripCommas l) with
    | some prev_f, some last_f =>
      (some (round2 (last_f - prev_f)),
       if prev_f ≠ 0 then some (round2 ((last_f - prev_f) / prev_f * 100)) else none)
    | _, _ => (none, none)
  | _, _ => (none, none)

/-- The all-`None` dict returned on every failure path. -/
def allAbsent : StockInfo :=
  ⟨none, none, none, none, none, none, none⟩

/-- Function `get_stock_info`, as a function of the observed fetch outcome. -/
def get_stock_info : FetchResult → StockInfo
  | .transportError => allAbsent
  | .httpError => allAbsent
  | .malformedBody => allAbsent
  | .ok data =>
    match data.msgArray with
    | some (info :: _) =>
      let raw_open := info.o.getD ""
      let raw_high := info.h.getD ""
      let raw_low  := info.l.getD ""
      let raw_prev := info.y.getD ""
      let raw_last := info.z.getD ""
      let open_price := normField raw_open
      let high_price := normField raw_high
      let low_price  := normField raw_low
      let prev_close := normField raw_prev
      let last_price := normField raw_last
      let cc := computeChange prev_close last_price
      ⟨open_price, high_price, low_price, prev_close, last_price, cc.1, cc.2⟩
    | some [] => allAbsent
    | none => allAbsent

/-- Format `"%+.2f" % q`: explicit sign, two decimal places. -/
def formatQ2 (q : ℚ) : String :=
  let n : ℤ := rhe (q * 100)
  let sign := if n < 0 then "-" else "+"
  let m := n.natAbs
  sign ++ toString (m / 100) ++ "." ++ (if m % 100 < 10 then "0" else "") ++ toString (m % 100)

/-- The per-ticker reply block of `handle_text_message` (lines 165–184):
a single no-quote line when `last` is `None`, otherwise the labelled
seven-line quote block with `"—"` for absent fields. -/
def format_block (code : String) (info : StockInfo) : String :=
  match info.last with
  | none => code ++ " 找不到即時報價或尚未成交。"
  | some last_str =>
    let open_str := info.open_price.getD "—"
    let high_str := info.high_price.getD "—"
    let low_str := info.low_price.getD "—"
    let prev_str := info.prev.getD "—"
    let change_str := match info.change with
      | some c => formatQ2 c
      | none => "—"
    let change_pct_str := match info.change_pct with
      | some c => formatQ2 c ++ "%"
      | none => "—"
    code ++ " 開盤價：" ++ open_str ++ " 元\n" ++
    "      當日最高：" ++ high_str ++ " 元\n" ++
    "      當日最低：" ++ low_str ++ " 元\n" ++
    "      昨收價：" ++ prev_str ++ " 元\n" ++
    "      最新成交：" ++ last_str ++ " 元\n" ++
    "      漲跌值：" ++ change_str ++ " 元\n" ++
    "      漲跌幅：" ++ change_pct_str

/-- Python `s.isdigit()`: nonempty and every character a digit (restricted to
the ASCII digits the claims use; the source accepts any Unicode digit). -/
def pyIsdigit (s : String) : Bool :=
  !s.isEmpty && s.data.all Char.isDigit

/-- Lines 146–147: strip the message, split on commas, keep the stripped
tokens that are entirely digits. -/
def intakeCodes (text : String) : List String :=
  (pySplitComma (pyStrip text)).filterMap
    (fun c => if pyIsdigit (pyStrip c) then some (pyStrip c) else none)

/-- Python's `sep.join(parts)`. -/
def pyJoin (sep : String) : List String → String
  | [] => ""
  | [x] => x
  | x :: xs => x ++ sep ++ pyJoin sep xs

/-- The fixed reply when no valid code survives intake. -/
def promptReply : String :=
  "請輸入正確的台股代號，例如「2330」或「2330,0050」"

/-- The `for code in codes:` loop: builds the reply blocks in order and
records the fetch calls made, one per code. -/
def processCodes (fetch : String → StockInfo) : List String → List String × List String
  | [] => ([], [])
  | code :: rest =>
    let info := fetch code
    let r := processCodes fetch rest
    (format_block code info :: r.1, code :: r.2)

/-- Handler `handle_text_message`, parameterized by the fetcher; returns the
reply text sent and the ordered list of codes fetched. -/
def handle_text_message (fetch : String → StockInfo) (text : String) : String × List String :=
  let codes := intakeCodes text
  if codes.length = 0 then (promptReply, [])
  else
    let r := processCodes fetch codes
    (pyJoin "\n\n" r.1, r.2)

set_option maxRecDepth 8000

/-- Lines in a reply string: one more than the number of newline characters. -/
def lineCount (s : String) : Nat :=
  s.data.count '\n' + 1

/-- The derived fields of any snapshot are exactly `computeChange` of its
normalized `prev` / `last` fields, on every path through `get_stock_info`. -/
theorem change_eq_computeChange (r : FetchResult) :
    ((get_stock_info r).change, (get_stock_info r).change_pct) =
      computeChange (get_stock_info r).prev (get_stock_info r).last := by
  cases r with
  | transportError => rfl
  | httpError => rfl
  | malformedBody => rfl
  | ok data =>
    rcases data with ⟨ma⟩
    rcases ma with _ | ⟨_ | ⟨info, rest⟩⟩ <;> rfl

/-- Unfolding `computeChange` when both strings parse. -/
theorem computeChange_parsed (p l : String) (pf lf : ℚ)
    (hp : pyFloat? (stripCommas p) = some pf)
    (hl : pyFloat? (stripCommas l) = some lf) :
    computeChange (some p) (some l) =
      (some (round2 (lf - pf)),
       if pf ≠ 0 then some (round2 ((lf - pf) / pf * 100)) else none) := by
  simp only [computeChange]
  rw [hp, hl]

/-- The `computeChange` result is `(none, none)` whenever an input is absent
or fails to parse. -/
theorem computeChange_eq_none (p l : Option String)
    (h : p = none ∨ l = none ∨
         (∃ ps, p = some ps ∧ pyFloat? (stripCommas ps) = none) ∨
         (∃ ls, l = some ls ∧ pyFloat? (stripCommas ls) = none)) :
    computeChange p l = (none, none) := by
  rcases p with _ | ps
  · rcases l with _ | ls <;> rfl
  rcases l with _ | ls
  · rfl
  rcases h with h | h | ⟨ps', hps, hparse⟩ | ⟨ls', hls, hparse⟩
  · exact absurd h (by simp)
  · exact absurd h (by simp)
  · rw [Option.some.injEq] at hps
    subst hps
    simp only [computeChange]
    rw [hparse]
  · rw [Option.some.injEq] at hls
    subst hls
    simp only [computeChange]
    rw [hparse]
    rcases pyFloat? (stripCommas ps) with _ | v <;> rfl

/-- C1: for every snapshot returned by `get_stock_info` whose
`previousClose` and `lastPrice` are both present and parse as numbers after
comma stripping, `change` is `lastPrice − previousClose` rounded to two
decimals, and `changePercent` is `(lastPrice − previousClose) / previousClose
× 100` rounded to two decimals when `previousClose` is nonzero, and absent
when `previousClose` is zero. -/
theorem C1_change_formula (r : FetchResult) (p l : String) (pf lf : ℚ)
    (hp : (get_stock_info r).prev = some p)
    (hl : (get_stock_info r).last = some l)
    (hpf : pyFloat? (stripCommas p) = some pf)
    (hlf : pyFloat? (stripCommas l) = some lf) :
    (get_stock_info r).change = some (round2 (lf - pf)) ∧
    (pf ≠ 0 → (get_stock_info r).change_pct = some (round2 ((lf - pf) / pf * 100))) ∧
    (pf = 0 → (get_stock_info r).change_pct = none) := by
  have h := change_eq_computeChange r
  rw [hp, hl, computeChange_parsed p l pf lf hpf hlf] at h
  have h1 := congrArg Prod.fst h
  have h2 := congrArg Prod.snd h
  simp only at h1 h2
  refine ⟨h1, ?_, ?_⟩
  · intro hne
    rw [h2, if_pos hne]
  · intro heq
    rw [h2, if_neg (by simp [heq])]

/-- Witness for C1 at a concrete provider row with `y = "100"`, `z = "103"`. -/
theorem C1_change_formula_witness :
    (get_stock_info (.ok ⟨some [⟨none, none, none, some "100", some "103"⟩]⟩)).change =
      some (round2 ((103 : ℚ) - 100)) ∧
    (get_stock_info (.ok ⟨some [⟨none, none, none, some "100", some "103"⟩]⟩)).change_pct =
      some (round2 (((103 : ℚ) - 100) / 100 * 100)) := by
  have h := C1_change_formula (.ok ⟨some [⟨none, none, none, some "100", some "103"⟩]⟩)
    "100" "103" 100 103
    (by with_unfolding_all decide) (by with_unfolding_all decide)
    (by with_unfolding_all decide) (by with_unfolding_all decide)
  exact ⟨h.1, h.2.1 (by with_unfolding_all decide)⟩

/-- C2: every failure path — transport error, non-success HTTP status,
malformed body, or a missing or empty `msgArray` — returns the all-absent
snapshot; `get_stock_info` is a total function, so no error propagates. -/
theorem C2_failure_all_absent (r : FetchResult)
    (h : r = .transportError ∨ r = .httpError ∨ r = .malformedBody ∨
         (∃ d, r = .ok d ∧ (d.msgArray = none ∨ d.msgArray = some []))) :
    get_stock_info r = allAbsent := by
  rcases h with h | h | h | ⟨d, hd, hm⟩
  · subst h; rfl
  · subst h; rfl
  · subst h; rfl
  · subst hd
    rcases hm with hm | hm <;> simp [get_stock_info, hm]

/-- Witness for C2 at a transport error and at an empty result array. -/
theorem C2_failure_all_absent_witness :
    get_stock_info .transportError = allAbsent ∧
    get_stock_info (.ok ⟨some []⟩) = allAbsent :=
  ⟨C2_failure_all_absent .transportError (Or.inl rfl),
   C2_failure_all_absent (.ok ⟨some []⟩)
     (Or.inr (Or.inr (Or.inr ⟨⟨some []⟩, rfl, Or.inr rfl⟩)))⟩

/-- C3: if `previousClose` or `lastPrice` is absent, or either fails to
parse after comma stripping, then `change` and `changePercent` are both
absent — never a partial result. -/
theorem C3_parse_failure_both_absent (r : FetchResult)
    (h : (get_stock_info r).prev = none ∨ (get_stock_info r).last = none ∨
         (∃ p, (get_stock_info r).prev = some p ∧ pyFloat? (stripCommas p) = none) ∨
         (∃ l, (get_stock_info r).last = some l ∧ pyFloat? (stripCommas l) = none)) :
    (get_stock_info r).change = none ∧ (get_stock_info r).change_pct = none := by
  have heq := change_eq_computeChange r
  rw [computeChange_eq_none _ _ h] at heq
  have h1 := congrArg Prod.fst heq
  have h2 := congrArg Prod.snd heq
  simp only at h1 h2
  exact ⟨h1, h2⟩

/-- Witness for C3 at a provider row whose `y` field is non-numeric. -/
theorem C3_parse_failure_both_absent_witness :
    (get_stock_info (.ok ⟨some [⟨none, none, none, some "abc", some "10"⟩]⟩)).change = none ∧
    (get_stock_info (.ok ⟨some [⟨none, none, none, some "abc", some "10"⟩]⟩)).change_pct = none :=
  C3_parse_failure_both_absent (.ok ⟨some [⟨none, none, none, some "abc", some "10"⟩]⟩)
    (Or.inr (Or.inr (Or.inl ⟨"abc", by with_unfolding_all decide, by with_unfolding_all decide⟩)))

/-- Field normalization restated: absent exactly when the raw value is empty
or the placeholder, otherwise the raw string unchanged. -/
theorem normField_eq_if (raw : String) :
    normField raw = if raw = "" ∨ raw = "-" then none else some raw := by
  by_cases h1 : raw = "" <;> by_cases h2 : raw = "-" <;> simp [normField, h1, h2]

/-- C4: in a snapshot built from a provider result object, each of the five
raw fields is absent exactly when the provider value (read with default `""`
for a missing key) is empty or the literal `"-"`, and is otherwise that raw
string unchanged — commas are never stripped from the stored values. -/
theorem C4_raw_fields (data : ProviderData) (info : ResultObj) (rest : List ResultObj)
    (hm : data.msgArray = some (info :: rest)) :
    ((get_stock_info (.ok data)).open_price =
       if info.o.getD "" = "" ∨ info.o.getD "" = "-" then none else some (info.o.getD "")) ∧
    ((get_stock_info (.ok data)).high_price =
       if info.h.getD "" = "" ∨ info.h.getD "" = "-" then none else some (info.h.getD "")) ∧
    ((get_stock_info (.ok data)).low_price =
       if info.l.getD "" = "" ∨ info.l.getD "" = "-" then none else some (info.l.getD "")) ∧
    ((get_stock_info (.ok data)).prev =
       if info.y.getD "" = "" ∨ info.y.getD "" = "-" then none else some (info.y.getD "")) ∧
    ((get_stock_info (.ok data)).last =
       if info.z.getD "" = "" ∨ info.z.getD "" = "-" then none else some (info.z.getD "")) := by
  rcases data with ⟨ma⟩
  simp only at hm
  subst hm
  exact ⟨normField_eq_if _, normField_eq_if _, normField_eq_if _,
         normField_eq_if _, normField_eq_if _⟩

/-- Provider row used to witness C4: a comma-bearing open, a `"-"` high, an
empty low, a missing previous close and a plain last price. -/
def c4row : ResultObj := ⟨some "1,234", some "-", some "", none, some "583"⟩

/-- Provider body holding `c4row`. -/
def c4data : ProviderData := ⟨some [c4row]⟩

/-- Witness for C4 at `c4row`. -/
theorem C4_raw_fields_witness :
    ((get_stock_info (.ok c4data)).open_price =
       if c4row.o.getD "" = "" ∨ c4row.o.getD "" = "-" then none else some (c4row.o.getD "")) ∧
    ((get_stock_info (.ok c4data)).high_price =
       if c4row.h.getD "" = "" ∨ c4row.h.getD "" = "-" then none else some (c4row.h.getD "")) ∧
    ((get_stock_info (.ok c4data)).low_price =
       if c4row.l.getD "" = "" ∨ c4row.l.getD "" = "-" then none else some (c4row.l.getD "")) ∧
    ((get_stock_info (.ok c4data)).prev =
       if c4row.y.getD "" = "" ∨ c4row.y.getD "" = "-" then none else some (c4row.y.getD "")) ∧
    ((get_stock_info (.ok c4data)).last =
       if c4row.z.getD "" = "" ∨ c4row.z.getD "" = "-" then none else some (c4row.z.getD "")) :=
  C4_raw_fields c4data c4row [] rfl

/-- C5: whenever `lastPrice` is absent, the formatter emits exactly the one
no-quote line for the ticker code, whatever the other fields hold. -/
theorem C5_no_quote_single_line (code : String) (info : StockInfo)
    (hc : pyIsdigit code = true) (hl : info.last = none) :
    format_block code info = code ++ " 找不到即時報價或尚未成交。" ∧
    lineCount (format_block code info) = 1 := by
  have hfb : format_block code info = code ++ " 找不到即時報價或尚未成交。" := by
    simp [format_block, hl]
  refine ⟨hfb, ?_⟩
  rw [hfb]
  unfold lineCount
  rw [String.data_append, List.count_append]
  have h1 : code.data.count (Char.ofNat 10) = 0 := by
    apply List.count_eq_zero.mpr
    intro hmem
    have hall := ((Bool.and_eq_true _ _).mp hc).2
    rw [List.all_eq_true] at hall
    have := hall _ hmem
    simp [Char.isDigit, Char.ofNat] at this
  have h2 : (" 找不到即時報價或尚未成交。" : String).data.count (Char.ofNat 10) = 0 := by
    decide
  have hn : ('\n' : Char) = Char.ofNat 10 := rfl
  rw [hn, h1, h2]

/-- Witness for C5 at code `"2330"` and the all-absent snapshot. -/
theorem C5_no_quote_single_line_witness :
    format_block "2330" allAbsent = "2330" ++ " 找不到即時報價或尚未成交。" ∧
    lineCount (format_block "2330" allAbsent) = 1 :=
  C5_no_quote_single_line "2330" allAbsent (by with_unfolding_all decide) rfl

/-- The snapshot named in the spec's formatting example. -/
def specExampleSnapshot : StockInfo :=
  ⟨some "580", some "585", some "578", some "580", some "583", some 3, some (13 / 25)⟩

/-- C6 counterexample: the claim calls the quote block a six-line block, but
at the spec's own example snapshot the block emitted for a present
`lastPrice` has seven lines (open, high, low, previous close, last price,
change, change percent — one per line), not six. -/
theorem C6_counterexample :
    lineCount (format_block "2330" specExampleSnapshot) ≠ 6 ∧
    lineCount (format_block "2330" specExampleSnapshot) = 7 := by
  refine ⟨?_, ?_⟩ <;> with_unfolding_all decide

/-- C6 amended: with `lastPrice` present the formatter emits a fixed
seven-line block — open, daily high, daily low, previous close, last price,
absolute change, change percent, each on its own labelled line — with the
em-dash placeholder for absent fields, and present change / changePercent
formatted with an explicit leading sign and two decimals, changePercent
suffixed with `%`; in particular change `3` renders `+3.00` and
changePercent `0.52` renders `+0.52%`. -/
theorem C6_seven_line_block (code : String) (info : StockInfo) (last_str : String)
    (hl : info.last = some last_str) :
    (format_block code info = pyJoin "\n" [
        code ++ " 開盤價：" ++ info.open_price.getD "—" ++ " 元",
        "      當日最高：" ++ info.high_price.getD "—" ++ " 元",
        "      當日最低：" ++ info.low_price.getD "—" ++ " 元",
        "      昨收價：" ++ info.prev.getD "—" ++ " 元",
        "      最新成交：" ++ last_str ++ " 元",
        "      漲跌值：" ++ ((info.change.map formatQ2).getD "—") ++ " 元",
        "      漲跌幅：" ++ ((info.change_pct.map (fun c => formatQ2 c ++ "%")).getD "—")]) ∧
    formatQ2 3 = "+3.00" ∧ formatQ2 (13 / 25) ++ "%" = "+0.52%" := by
  refine ⟨?_, by with_unfolding_all decide, by with_unfolding_all decide⟩
  rcases hch : info.change with _ | c <;> rcases hcp : info.change_pct with _ | c2 <;>
    apply String.ext <;>
    simp [format_block, hl, hch, hcp, pyJoin, String.data_append, List.append_assoc]

/-- Witness for C6 amended, at the spec's example snapshot. -/
theorem C6_seven_line_block_witness :
    (format_block "2330" specExampleSnapshot = pyJoin "\n" [
        "2330" ++ " 開盤價：" ++ specExampleSnapshot.open_price.getD "—" ++ " 元",
        "      當日最高：" ++ specExampleSnapshot.high_price.getD "—" ++ " 元",
        "      當日最低：" ++ specExampleSnapshot.low_price.getD "—" ++ " 元",
        "      昨收價：" ++ specExampleSnapshot.prev.getD "—" ++ " 元",
        "      最新成交：" ++ "583" ++ " 元",
        "      漲跌值：" ++ ((specExampleSnapshot.change.map formatQ2).getD "—") ++ " 元",
        "      漲跌幅：" ++
          ((specExampleSnapshot.change_pct.map (fun c => formatQ2 c ++ "%")).getD "—")]) ∧
    formatQ2 3 = "+3.00" ∧ formatQ2 (13 / 25) ++ "%" = "+0.52%" :=
  C6_seven_line_block "2330" specExampleSnapshot "583" rfl

/-- A `filterMap` of strip-then-keep equals mapping strip and filtering. -/
theorem intake_filterMap_eq (l : List String) :
    l.filterMap (fun c => if pyIsdigit (pyStrip c) then some (pyStrip c) else none) =
      (l.map pyStrip).filter (fun t => pyIsdigit t) := by
  induction l with
  | nil => rfl
  | cons x xs ih =>
    by_cases hx : pyIsdigit (pyStrip x) = true <;>
      simp [List.filterMap_cons, List.filter_cons, hx, ih]

/-- C7: intake strips the message, splits it on commas, strips each token
and keeps, in order, exactly the tokens made entirely of digits; on the
spec's example it yields `["2330", "0050"]`. -/
theorem C7_intake (text : String) :
    intakeCodes text =
      ((pySplitComma (pyStrip text)).map pyStrip).filter (fun t => pyIsdigit t) ∧
    intakeCodes "2330, abc ,0050," = ["2330", "0050"] :=
  ⟨intake_filterMap_eq _, by with_unfolding_all decide⟩

/-- C8: when no token survives intake, the handler replies with the fixed
prompt and performs zero fetch calls. -/
theorem C8_no_codes_prompt (fetch : String → StockInfo) (text : String)
    (h : intakeCodes text = []) :
    handle_text_message fetch text = (promptReply, []) := by
  simp [handle_text_message, h]

/-- Witness for C8 at the spec's example message `"abc,def"`. -/
theorem C8_no_codes_prompt_witness :
    intakeCodes "abc,def" = [] ∧
    handle_text_message (fun _ => allAbsent) "abc,def" = (promptReply, []) :=
  ⟨by with_unfolding_all decide,
   C8_no_codes_prompt (fun _ => allAbsent) "abc,def" (by with_unfolding_all decide)⟩

/-- The reply loop is a map over the codes, and it calls the fetcher exactly
once per code, in order. -/
theorem processCodes_eq_map (fetch : String → StockInfo) (l : List String) :
    processCodes fetch l = (l.map (fun c => format_block c (fetch c)), l) := by
  induction l with
  | nil => rfl
  | cons x xs ih => simp [processCodes, ih]

/-- C9: with at least one surviving code, the handler fetches once per code
in message order (duplicates kept, fetched independently) and the reply is
the per-ticker blocks in that order joined with a double line break. -/
theorem C9_fetch_per_code_in_order (fetch : String → StockInfo) (text : String)
    (h : intakeCodes text ≠ []) :
    handle_text_message fetch text =
      (pyJoin "\n\n" ((intakeCodes text).map (fun c => format_block c (fetch c))),
       intakeCodes text) := by
  have hlen : (intakeCodes text).length ≠ 0 := by
    simpa [List.length_eq_zero] using h
  simp [handle_text_message, hlen, processCodes_eq_map]

/-- Witness for C9 at the duplicated message `"2330,2330"`. -/
theorem C9_fetch_per_code_in_order_witness :
    handle_text_message (fun _ => allAbsent) "2330,2330" =
      (pyJoin "\n\n"
         ((intakeCodes "2330,2330").map (fun c => format_block c ((fun _ => allAbsent) c))),
       intakeCodes "2330,2330") :=
  C9_fetch_per_code_in_order (fun _ => allAbsent) "2330,2330" (by with_unfolding_all decide)

/-- C10 counterexample: the claim's converse clause says a snapshot whose
`previousClose` parses to zero has `change` present; the row with
`y = "0"` and no traded price has `previousClose` present and parsing to
zero, yet `change` absent. -/
theorem C10_counterexample :
    (get_stock_info (.ok ⟨some [⟨none, none, none, some "0", none⟩]⟩)).prev = some "0" ∧
    pyFloat? (stripCommas "0") = some 0 ∧
    (get_stock_info (.ok ⟨some [⟨none, none, none, some "0", none⟩]⟩)).change = none := by
  refine ⟨?_, ?_, ?_⟩ <;> with_unfolding_all decide

/-- C10 amended: if `changePercent` is present then `change` is present,
`previousClose` and `lastPrice` are present, both parse, and `previousClose`
parses to a nonzero number; conversely a snapshot whose `previousClose`
parses to zero while `lastPrice` is present and parses has `change` present
but `changePercent` absent. -/
theorem C10_change_pct_invariant (r : FetchResult) :
    (∀ v, (get_stock_info r).change_pct = some v →
      (get_stock_info r).change ≠ none ∧
      ∃ p l pf lf, (get_stock_info r).prev = some p ∧ (get_stock_info r).last = some l ∧
        pyFloat? (stripCommas p) = some pf ∧ pyFloat? (stripCommas l) = some lf ∧ pf ≠ 0) ∧
    (∀ p l pf lf, (get_stock_info r).prev = some p → (get_stock_info r).last = some l →
      pyFloat? (stripCommas p) = some pf → pyFloat? (stripCommas l) = some lf → pf = 0 →
      (get_stock_info r).change ≠ none ∧ (get_stock_info r).change_pct = none) := by
  constructor
  · intro v hv
    rcases hprev : (get_stock_info r).prev with _ | p
    · have hbad := change_eq_computeChange r
      rw [computeChange_eq_none _ _ (Or.inl hprev)] at hbad
      have := congrArg Prod.snd hbad
      simp only at this
      rw [this] at hv
      exact absurd hv (by simp)
    rcases hlast : (get_stock_info r).last with _ | l
    · have hbad := change_eq_computeChange r
      rw [computeChange_eq_none _ _ (Or.inr (Or.inl hlast))] at hbad
      have := congrArg Prod.snd hbad
      simp only at this
      rw [this] at hv
      exact absurd hv (by simp)
    rcases hpf : pyFloat? (stripCommas p) with _ | pf
    · have hbad := change_eq_computeChange r
      rw [computeChange_eq_none _ _ (Or.inr (Or.inr (Or.inl ⟨p, hprev, hpf⟩)))] at hbad
      have := congrArg Prod.snd hbad
      simp only at this
      rw [this] at hv
      exact absurd hv (by simp)
    rcases hlf : pyFloat? (stripCommas l) with _ | lf
    · have hbad := change_eq_computeChange r
      rw [computeChange_eq_none _ _ (Or.inr (Or.inr (Or.inr ⟨l, hlast, hlf⟩)))] at hbad
      have := congrArg Prod.snd hbad
      simp only at this
      rw [this] at hv
      exact absurd hv (by simp)
    have heq := change_eq_computeChange r
    rw [hprev, hlast, computeChange_parsed p l pf lf hpf hlf] at heq
    have h1 := congrArg Prod.fst heq
    have h2 := congrArg Prod.snd heq
    simp only at h1 h2
    by_cases hz : pf = 0
    · rw [h2, if_neg (by simp [hz])] at hv
      exact absurd hv (by simp)
    · exact ⟨by rw [h1]; simp, p, l, pf, lf, rfl, rfl, hpf, hlf, hz⟩
  · intro p l pf lf hprev hlast hpf hlf hz
    have heq := change_eq_computeChange r
    rw [hprev, hlast, computeChange_parsed p l pf lf hpf hlf] at heq
    have h1 := congrArg Prod.fst heq
    have h2 := congrArg Prod.snd heq
    simp only at h1 h2
    exact ⟨by rw [h1]; simp, by rw [h2, if_neg (by simp [hz])]⟩

/-- Witness for C10 amended at the row `y = "0"`, `z = "3"`: change present,
changePercent absent. -/
theorem C10_change_pct_invariant_witness :
    (get_stock_info (.ok ⟨some [⟨none, none, none, some "0", some "3"⟩]⟩)).change ≠ none ∧
    (get_stock_info (.ok ⟨some [⟨none, none, none, some "0", some "3"⟩]⟩)).change_pct = none :=
  (C10_change_pct_invariant (.ok ⟨some [⟨none, none, none, some "0", some "3"⟩]⟩)).2
    "0" "3" 0 3
    (by with_unfolding_all decide) (by with_unfolding_all decide)
    (by with_unfolding_all decide) (by with_unfolding_all decide) rfl

end App
